import Mathlib

/-!
Formal model of the `CachedDisk` class (src/src/cached-disk.ts, the variant
using the lazily-initialized `db` getter and `getPath`, lines 163-364 of the
concatenated file).

The sqlite tables are modelled as in-memory data:
  * table `cache (path PRIMARY KEY, cachedPath, size, lastAccess)` as a list of
    `CacheEntry` rows (row order models sqlite table order for the
    `ORDER BY lastAccess` tie-break),
  * the singleton `cacheSize` counter as an `Int`,
  * the `isCleaning` field as a `Bool`.
The local filesystem holding the physical blobs is a finite association list
from absolute path to byte content; `stat` succeeding means the path is bound,
`stat` failing with ENOENT means it is unbound.  The origin store (`this.disk`)
is an abstract capability record of response functions, per spec section 6.
`Date.now()` and `randomUUID()` are passed in as explicit parameters.
JavaScript numbers holding byte counts are modelled as `Nat` for sizes and
`Int` for the running counter (which the code can drive below zero); the
floating comparison `total > maxSize * 0.75` is exact on these integer
operands and is encoded as `4 * total > 3 * maxSize`.

All operations are asynchronous tasks on one cooperative thread (spec
section 5); each public operation is modelled as a function from state to
state, and the detached population task spawned by a miss is returned as
pending data and modelled by its own function `setToCache`, applied later.
-/

namespace CachedDisk

/-- Byte content of a file, one `Nat` per byte. -/
abbrev Bytes := List Nat

/-- One row of the sqlite `cache` table:
`(path TEXT PRIMARY KEY, cachedPath TEXT, size INTEGER, lastAccess INTEGER)`.
`cachedPath` stores the bare generated name (the code joins it with the
configured directory through `getPath` on every access). -/
structure CacheEntry where
  path : String
  cachedPath : String
  size : Nat
  lastAccess : Nat
deriving DecidableEq, Repr

/-- The mutable state of one `CachedDisk` instance: the `cache` table, the
singleton `cacheSize` counter, and the private `isCleaning` field
(initialized to `false` by the field initializer, line 178). -/
structure CacheState where
  cache : List CacheEntry
  cacheSize : Int
  isCleaning : Bool
deriving DecidableEq, Repr

/-- The local blob filesystem: absolute path to byte content. -/
abbrev Fs := List (String × Bytes)

/-- `stat`/`readFile`: the content bound to a path, `none` meaning ENOENT. -/
def Fs.lookup (fs : Fs) (p : String) : Option Bytes :=
  (fs.find? fun kv => kv.1 == p).map Prod.snd

/-- `unlink`: remove the binding for a path (no-op when absent; call sites
that treat an absent path as an error test `Fs.lookup` first). -/
def Fs.unlink (fs : Fs) (p : String) : Fs :=
  fs.filter fun kv => kv.1 != p

/-- `writeFile`/`pipeline` into `createWriteStream`: bind a path to content. -/
def Fs.write (fs : Fs) (p : String) (b : Bytes) : Fs :=
  Fs.unlink fs p ++ [(p, b)]

/-- `SELECT * FROM cache WHERE path = ?` (path is the primary key). -/
def lookupPath (l : List CacheEntry) (p : String) : Option CacheEntry :=
  l.find? fun e => e.path == p

/-- `DELETE FROM cache WHERE path = ?`. -/
def removePath (l : List CacheEntry) (p : String) : List CacheEntry :=
  l.filter fun e => e.path != p

/-- `INSERT OR REPLACE INTO cache VALUES (?, ?, ?, ?)`: sqlite deletes the
row with the conflicting primary key and inserts the new row. -/
def upsert (l : List CacheEntry) (e : CacheEntry) : List CacheEntry :=
  removePath l e.path ++ [e]

/-- `UPDATE cache SET lastAccess = ? WHERE path = ?`. -/
def touch (l : List CacheEntry) (p : String) (now : Nat) : List CacheEntry :=
  l.map fun e => if e.path == p then ⟨e.path, e.cachedPath, e.size, now⟩ else e

/-- `SELECT SUM(size) FROM cache`, used by the eviction failure handler. -/
def sumSizes (l : List CacheEntry) : Int :=
  (l.map fun e => (e.size : Int)).sum

/-- `SELECT * FROM cache ORDER BY lastAccess ASC LIMIT 1`: the first row in
table order among those with minimal `lastAccess`. -/
def oldest (l : List CacheEntry) : Option CacheEntry :=
  l.foldl
    (fun acc e =>
      match acc with
      | none => some e
      | some a => if e.lastAccess < a.lastAccess then some e else some a)
    none

/-- The host configuration provider (`Config`), restricted to the four keys
the class reads.  `none` means the key is unset, so `Config.get` falls back
to its default and `Config.getOrThrow` throws. -/
structure Cfg where
  /-- key `settings.disk.cache.directory`, required via `Config.getOrThrow`
  in `getPath` (lines 356-363) -/
  directory : Option String
  /-- key `settings.disk.cache.dbName`, default `"cache.db"` (line 183) -/
  dbName : Option String
  /-- key `settings.disk.cache.maxSize`, default 1000000000, read by the
  population trigger (line 314) -/
  settingsMaxSize : Option Int
  /-- key `cache.maxSize`, default 1000000000, read by the `cleanCache`
  loop condition (line 344) -/
  cacheMaxSize : Option Int
deriving Repr

def directoryKey : String := "settings.disk.cache.directory"

def directoryMsg : String :=
  "You must provide a directory name when using cached storage (CachedDisk)."

/-- The errors an operation of the class can raise. -/
inductive CdError where
  /-- `ConfigNotFoundError` thrown by `Config.getOrThrow`, carrying the key
  and the custom message -/
  | configNotFound (key msg : String)
  /-- an error from the origin store, carried unchanged -/
  | origin (e : String)
  /-- artifact of the fuel-indexed recursion in `read`; never produced when
  the fuel is at least 2 (one stale-hit purge plus one fresh retry) -/
  | fuel
deriving DecidableEq, Repr

/-- An origin-store error (opaque to the cache, forwarded verbatim). -/
abbrev OriginErr := String

/-- `getPath(path)`: `join(Config.getOrThrow('settings.disk.cache.directory',
...), path)`; throws `ConfigNotFoundError` when the directory is unset. -/
def getPath (cfg : Cfg) (p : String) : Except CdError String :=
  match cfg.directory with
  | none => Except.error (CdError.configNotFound directoryKey directoryMsg)
  | some d => Except.ok (d ++ "/" ++ p)

/-- The lazily-initialized `db` getter (lines 181-191): opening the database
resolves `getPath(Config.get('settings.disk.cache.dbName', 'string',
'cache.db'))`, so every database access requires the configured directory and
throws `ConfigNotFoundError` first when it is missing.  (The sqlite file and
the DDL have no further observable effect in the model.) -/
def dbReady (cfg : Cfg) : Except CdError Unit :=
  (getPath cfg (cfg.dbName.getD "cache.db")).map fun _ => ()

/-- `Config.get('settings.disk.cache.maxSize', 'number', 1000000000)`. -/
def maxSettings (cfg : Cfg) : Int := cfg.settingsMaxSize.getD 1000000000

/-- `Config.get('cache.maxSize', 'number', 1000000000)` (note: a different
key from the one the population trigger reads). -/
def maxClean (cfg : Cfg) : Int := cfg.cacheMaxSize.getD 1000000000

/-- The read mode, the `content` parameter of `read`. -/
inductive Mode where
  | buffer
  | stream
deriving DecidableEq, Repr

/-- The `file` half of a read result: a `Buffer` holding bytes, or a
`Readable` modelled by the byte sequence it yields. -/
inductive FileVal where
  | buf (b : Bytes)
  | stream (b : Bytes)
deriving DecidableEq, Repr

/-- The bytes a `Buffer` holds, or the bytes a `Readable` yields when piped
(`pipeline(file, createWriteStream(...))`). -/
def FileVal.bytes : FileVal → Bytes
  | FileVal.buf b => b
  | FileVal.stream b => b

/-- The `file` value served from the cache: `readFile` bytes in buffered
mode, a `createReadStream` readable over the blob in streamed mode. -/
def fileOfMode : Mode → Bytes → FileVal
  | Mode.buffer, b => FileVal.buf b
  | Mode.stream, b => FileVal.stream b

/-- The origin store `this.disk`, an abstract capability record: the
response each call would produce (spec section 6). -/
structure Origin where
  readResp : String → Mode → Except OriginErr (FileVal × Nat)
  readSizeResp : String → Except OriginErr Nat
  deleteResp : String → Except OriginErr Unit

/-- External I/O calls, recorded in order so that "before any I/O" claims
are statable.  Database accesses are state, not events; opening the sqlite
file happens only after `getPath` has resolved the directory. -/
inductive Ev where
  | originRead (p : String)
  | originReadSize (p : String)
  | originDelete (p : String)
  | fsStat (p : String)
  | fsRead (p : String)
  | fsUnlink (p : String)
deriving DecidableEq, Repr

/-- `isCached(path)` (lines 241-243): a point query on the `cache` table
(requiring the database, hence the directory).  `Option` stands for the
`CacheEntry | false` union. -/
def isCached (cfg : Cfg) (s : CacheState) (p : String) :
    Except CdError (Option CacheEntry) :=
  (dbReady cfg).map fun _ => lookupPath s.cache p

/-- What a call to `read` produces: the value or error the caller's promise
settles with, the instance state and filesystem at that moment, the
detached population tasks spawned (path plus the awaited origin promise,
not yet executed), and the external calls made, in order. -/
structure ReadResult where
  result : Except CdError (FileVal × Nat)
  state : CacheState
  fs : Fs
  pops : List (String × Except OriginErr (FileVal × Nat))
  evs : List Ev
deriving Repr

/-- The miss branch of `read` (lines 211-213): delegate to
`this.disk.read`, spawn `setToCache(path, promise)` without awaiting it,
and return the origin's promise itself to the caller. -/
def missRead (origin : Origin) (s : CacheState) (fs : Fs) (path : String)
    (mode : Mode) : ReadResult :=
  ⟨(origin.readResp path mode).mapError CdError.origin, s, fs,
    [(path, origin.readResp path mode)], [Ev.originRead path]⟩

/-- `getFromCache(path, content)` (lines 251-298) with the two
`return this.read(path, content)` call sites abstracted as `retry` (the
absent-row guard, and the ENOENT recovery after purging the stale row).
On a hit the returned `size` is the one destructured from `stat`, i.e. the
physical blob's length, and `lastAccess` is set to `Date.now()` first.
The ENOENT handler best-effort-unlinks the blob (`.catch(() => {})`),
deletes the row (without touching `cacheSize`), and retries. -/
def getFromCacheCore (cfg : Cfg) (s : CacheState) (fs : Fs) (path : String)
    (mode : Mode) (now : Nat) (retry : CacheState → Fs → ReadResult) :
    ReadResult :=
  match lookupPath s.cache path with
  | none => retry s fs
  | some ce =>
    match getPath cfg ce.cachedPath with
    | Except.error e => ⟨Except.error e, s, fs, [], []⟩
    | Except.ok p =>
      match Fs.lookup fs p with
      | none =>
        let s' : CacheState := ⟨removePath s.cache path, s.cacheSize, s.isCleaning⟩
        let r := retry s' (Fs.unlink fs p)
        ⟨r.result, r.state, r.fs, r.pops, Ev.fsStat p :: Ev.fsUnlink p :: r.evs⟩
      | some b =>
        let s' : CacheState := ⟨touch s.cache path now, s.cacheSize, s.isCleaning⟩
        match mode with
        | Mode.buffer =>
          ⟨Except.ok (FileVal.buf b, b.length), s', fs, [], [Ev.fsStat p, Ev.fsRead p]⟩
        | Mode.stream =>
          ⟨Except.ok (FileVal.stream b, b.length), s', fs, [], [Ev.fsStat p]⟩

/-- `read(path, content)` (lines 207-214), fuel-indexed to bound the
`getFromCache` retry recursion; fuel 2 covers every sequential execution
(a purged row cannot stale-hit twice).  `now` models `Date.now()`. -/
def read : Nat → Cfg → Origin → CacheState → Fs → String → Mode → Nat → ReadResult
  | 0, _, _, s, fs, _, _, _ => ⟨Except.error CdError.fuel, s, fs, [], []⟩
  | n + 1, cfg, origin, s, fs, path, mode, now =>
    match isCached cfg s path with
    | Except.error e => ⟨Except.error e, s, fs, [], []⟩
    | Except.ok none => missRead origin s fs path mode
    | Except.ok (some _) =>
      getFromCacheCore cfg s fs path mode now fun s' fs' =>
        read n cfg origin s' fs' path mode now

/-- `getFromCache` proper: the core with `retry` tied back to `read`. -/
def getFromCache (n : Nat) (cfg : Cfg) (origin : Origin) (s : CacheState)
    (fs : Fs) (path : String) (mode : Mode) (now : Nat) : ReadResult :=
  getFromCacheCore cfg s fs path mode now fun s' fs' =>
    read n cfg origin s' fs' path mode now

/-- `readSize(path)` (lines 216-218): `return this.disk.readSize(path)` —
no database access, no cache mutation. -/
def readSize (origin : Origin) (s : CacheState) (fs : Fs) (path : String) :
    Except CdError Nat × CacheState × Fs × List Ev :=
  ((origin.readSizeResp path).mapError CdError.origin, s, fs,
    [Ev.originReadSize path])

/-- What a call to `delete` produces. -/
structure DeleteResult where
  result : Except CdError Unit
  state : CacheState
  fs : Fs
  evs : List Ev
deriving Repr

/-- `delete(path)` (lines 226-234): when the path is cached, best-effort
unlink the blob, delete the row, decrement the counter, and only then
forward `this.disk.delete(path)`, whose result (value or error) is
returned to the caller as-is.  The `getPath` error branch is unreachable
once `isCached` has succeeded (both need the same key); it is kept for
totality. -/
def delete (cfg : Cfg) (origin : Origin) (s : CacheState) (fs : Fs)
    (path : String) : DeleteResult :=
  match isCached cfg s path with
  | Except.error e => ⟨Except.error e, s, fs, []⟩
  | Except.ok none =>
    ⟨(origin.deleteResp path).mapError CdError.origin, s, fs, [Ev.originDelete path]⟩
  | Except.ok (some ce) =>
    match getPath cfg ce.cachedPath with
    | Except.error e => ⟨Except.error e, s, fs, []⟩
    | Except.ok p =>
      ⟨(origin.deleteResp path).mapError CdError.origin,
        ⟨removePath s.cache path, s.cacheSize - (ce.size : Int), s.isCleaning⟩,
        Fs.unlink fs p,
        [Ev.fsUnlink p, Ev.originDelete path]⟩

/-- One iteration step of the `while` loop in `cleanCache` (lines 342-351),
fuel-bounded; the fuel passed by `cleanCache` exceeds the row count, and
each iteration deletes a row, so the 0-fuel base is never reached.  The
loop's `unlink` has no `.catch`: an absent blob rejects the whole pass
(`Except.error`, carrying the state at the failure point), as does the
`getPath` throw.  The loop condition compares the counter against
`Config.get('cache.maxSize', ...) * 0.75`, encoded exactly. -/
def cleanLoop (cfg : Cfg) : Nat → CacheState → Fs →
    Except (CacheState × Fs) (CacheState × Fs)
  | 0, s, fs => Except.ok (s, fs)
  | n + 1, s, fs =>
    if 4 * s.cacheSize > 3 * maxClean cfg then
      match oldest s.cache with
      | none => Except.ok (s, fs)
      | some e =>
        match getPath cfg e.cachedPath with
        | Except.error _ => Except.error (s, fs)
        | Except.ok p =>
          match Fs.lookup fs p with
          | none => Except.error (s, fs)
          | some _ =>
            cleanLoop cfg n
              ⟨removePath s.cache e.path, s.cacheSize - (e.size : Int), s.isCleaning⟩
              (Fs.unlink fs p)
    else Except.ok (s, fs)

/-- `cleanCache()` (lines 338-354) together with the `.catch` handler its
only call site attaches (lines 316-319): return immediately when
`isCleaning` is set; otherwise set it, drain via the loop, and clear it;
on a rejected pass the handler resynchronizes the counter by full
aggregation and clears the flag. -/
def cleanCache (cfg : Cfg) (s : CacheState) (fs : Fs) : CacheState × Fs :=
  if s.isCleaning then (s, fs)
  else
    match cleanLoop cfg (s.cache.length + 1) ⟨s.cache, s.cacheSize, true⟩ fs with
    | Except.ok (s', fs') => (⟨s'.cache, s'.cacheSize, false⟩, fs')
    | Except.error (s', fs') => (⟨s'.cache, sumSizes s'.cache, false⟩, fs')

/-- What the detached population task produces: the state and filesystem
when it settles, and whether its promise fulfilled or rejected.  Its call
site (`void this.setToCache(path, promise)`, line 212) attaches no
handler, so a rejected outcome is an unhandled rejection. -/
inductive PopErr where
  /-- rejection of `await content` (the origin read failed) -/
  | awaited (e : OriginErr)
  /-- rejection of the blob write (`writeFile` / `pipeline`) -/
  | writeFailed
  /-- `getPath` threw while building the blob path -/
  | config (e : CdError)
deriving DecidableEq, Repr

structure PopResult where
  state : CacheState
  fs : Fs
  outcome : Except PopErr Unit
deriving Repr

/-- Lines 322-332 of `setToCache`: generate a name, join it with the
configured directory, write the blob (`writeOk` says whether the disk
write succeeds), then `UPDATE cacheSize SET size = size + ?` and
`INSERT OR REPLACE` the row with `lastAccess = Date.now()`.  On a failed
write nothing after the write runs. -/
def popWrite (cfg : Cfg) (path : String) (file : FileVal) (size : Nat)
    (name : String) (now : Nat) (writeOk : Bool) (s : CacheState) (fs : Fs) :
    PopResult :=
  match getPath cfg name with
  | Except.error e => ⟨s, fs, Except.error (PopErr.config e)⟩
  | Except.ok cachedPath =>
    if writeOk then
      ⟨⟨upsert s.cache ⟨path, name, size, now⟩, s.cacheSize + (size : Int), s.isCleaning⟩,
        Fs.write fs cachedPath file.bytes, Except.ok ()⟩
    else ⟨s, fs, Except.error PopErr.writeFailed⟩

/-- `setToCache(path, content)` (lines 305-333): await the origin promise
(a rejection rejects the task here), then, only if `isCleaning` is already
set and the counter plus the new size exceeds
`Config.get('settings.disk.cache.maxSize', ...)`, invoke `cleanCache`
(whose rejection the attached `.catch` absorbs inside `cleanCache` in this
model), and in any case continue into the write-and-index part. -/
def setToCache (cfg : Cfg) (path : String)
    (content : Except OriginErr (FileVal × Nat)) (name : String) (now : Nat)
    (writeOk : Bool) (s : CacheState) (fs : Fs) : PopResult :=
  match content with
  | Except.error e => ⟨s, fs, Except.error (PopErr.awaited e)⟩
  | Except.ok (file, size) =>
    let sf :=
      if s.isCleaning = true ∧ s.cacheSize + (size : Int) > maxSettings cfg then
        cleanCache cfg s fs
      else (s, fs)
    popWrite cfg path file size name now writeOk sf.1 sf.2

/-- `setToCache` with the eviction-trigger block (lines 311-320) deleted:
awaiting the content and then going straight to the write-and-index part.
Equality of `setToCache` with this function on a given state expresses
that the `cleanCache` invocation contributes nothing there. -/
def setToCacheNoTrigger (cfg : Cfg) (path : String)
    (content : Except OriginErr (FileVal × Nat)) (name : String) (now : Nat)
    (writeOk : Bool) (s : CacheState) (fs : Fs) : PopResult :=
  match content with
  | Except.error e => ⟨s, fs, Except.error (PopErr.awaited e)⟩
  | Except.ok (file, size) => popWrite cfg path file size name now writeOk s fs

/-- Invariant I1 of the spec: the `cacheSize` counter equals the sum of the
`size` column over the live rows. -/
abbrev I1 (s : CacheState) : Prop := s.cacheSize = sumSizes s.cache

/-- One completed state-affecting step of the public surface: a `read` call
(with the fuel and clock instances of that call), a detached population
task settling (with the awaited content, generated name, clock and write
outcome of that task — a superset of the tasks actually spawned), or a
`delete` call.  `write` and `readSize` are pass-throughs that never touch
instance state. -/
inductive Step (cfg : Cfg) (origin : Origin) :
    CacheState × Fs → CacheState × Fs → Prop where
  | readStep : ∀ fuel s fs path mode now,
      Step cfg origin (s, fs)
        ((read fuel cfg origin s fs path mode now).state,
          (read fuel cfg origin s fs path mode now).fs)
  | popStep : ∀ s fs path content name now writeOk,
      Step cfg origin (s, fs)
        ((setToCache cfg path content name now writeOk s fs).state,
          (setToCache cfg path content name now writeOk s fs).fs)
  | deleteStep : ∀ s fs path,
      Step cfg origin (s, fs)
        ((delete cfg origin s fs path).state, (delete cfg origin s fs path).fs)

end CachedDisk

namespace CachedDisk

instance {ε α : Type} [DecidableEq ε] [DecidableEq α] : DecidableEq (Except ε α) := fun a b => by
  cases a with
  | ok x =>
    cases b with
    | ok y => exact decidable_of_iff (x = y) (by simp)
    | error f => exact Decidable.isFalse fun h => Except.noConfusion h
  | error e =>
    cases b with
    | ok y => exact Decidable.isFalse fun h => Except.noConfusion h
    | error f => exact decidable_of_iff (e = f) (by simp)

/-- A purged primary key no longer resolves: `lookupPath` after `removePath`
on the same path yields nothing. -/
theorem lookupPath_removePath (l : List CacheEntry) (p : String) :
    lookupPath (removePath l p) p = none := by
  rw [lookupPath, List.find?_eq_none]
  intro e he
  have h2 := (List.mem_filter.mp he).2
  simpa using h2

/-- With the directory configured, the lazy database handle opens. -/
theorem dbReady_ok (cfg : Cfg) (d : String) (hdir : cfg.directory = some d) :
    dbReady cfg = Except.ok () := by
  simp [dbReady, getPath, hdir, Except.map]

/-- `read` at positive fuel on a missing row is exactly the miss branch. -/
theorem read_miss_eq (n : Nat) (cfg : Cfg) (origin : Origin) (s : CacheState)
    (fs : Fs) (path : String) (mode : Mode) (now : Nat)
    (hdb : dbReady cfg = Except.ok ())
    (hmiss : lookupPath s.cache path = none) :
    read (n + 1) cfg origin s fs path mode now = missRead origin s fs path mode := by
  simp [read, isCached, hdb, hmiss, Except.map]

/-- `read` at positive fuel on a present row is `getFromCache` at one less
fuel. -/
theorem read_hit_eq (n : Nat) (cfg : Cfg) (origin : Origin) (s : CacheState)
    (fs : Fs) (path : String) (mode : Mode) (now : Nat) (ce : CacheEntry)
    (hdb : dbReady cfg = Except.ok ())
    (hce : lookupPath s.cache path = some ce) :
    read (n + 1) cfg origin s fs path mode now =
      getFromCache n cfg origin s fs path mode now := by
  simp [read, isCached, hdb, hce, getFromCache, Except.map]

/-- `getFromCacheCore` leaves the `isCleaning` field to the retry
continuation, which is handed a state agreeing with the input on it. -/
theorem getFromCacheCore_isCleaning (cfg : Cfg) (s : CacheState) (fs : Fs)
    (path : String) (mode : Mode) (now : Nat)
    (retry : CacheState → Fs → ReadResult)
    (h : ∀ s' fs', s'.isCleaning = s.isCleaning →
      (retry s' fs').state.isCleaning = s.isCleaning) :
    (getFromCacheCore cfg s fs path mode now retry).state.isCleaning =
      s.isCleaning := by
  unfold getFromCacheCore
  split
  · exact h s fs rfl
  · split
    · rfl
    · split
      · exact h _ _ rfl
      · cases mode <;> rfl

/-- `read` never touches the `isCleaning` field. -/
theorem read_isCleaning (n : Nat) (cfg : Cfg) (origin : Origin) :
    ∀ (s : CacheState) (fs : Fs) (path : String) (mode : Mode) (now : Nat),
      (read n cfg origin s fs path mode now).state.isCleaning = s.isCleaning := by
  induction n with
  | zero => intro s fs path mode now; rfl
  | succ n ih =>
    intro s fs path mode now
    show (read (n + 1) cfg origin s fs path mode now).state.isCleaning = s.isCleaning
    simp only [read]
    split
    · rfl
    · rfl
    · exact getFromCacheCore_isCleaning cfg s fs path mode now _
        fun s' fs' hflag => by rw [ih s' fs' path mode now, hflag]

/-- The write-and-index part of population never touches `isCleaning`. -/
theorem popWrite_isCleaning (cfg : Cfg) (path : String) (file : FileVal)
    (size : Nat) (name : String) (now : Nat) (writeOk : Bool) (s : CacheState)
    (fs : Fs) :
    (popWrite cfg path file size name now writeOk s fs).state.isCleaning =
      s.isCleaning := by
  unfold popWrite
  split
  · rfl
  · cases writeOk <;> simp

/-- With `isCleaning` clear, the trigger guard in `setToCache` fails, so the
whole eviction block is skipped. -/
theorem setToCache_eq_noTrigger (cfg : Cfg) (path : String)
    (content : Except OriginErr (FileVal × Nat)) (name : String) (now : Nat)
    (writeOk : Bool) (s : CacheState) (fs : Fs) (h : s.isCleaning = false) :
    setToCache cfg path content name now writeOk s fs =
      setToCacheNoTrigger cfg path content name now writeOk s fs := by
  unfold setToCache setToCacheNoTrigger
  cases content with
  | error e => rfl
  | ok fsz =>
    obtain ⟨file, size⟩ := fsz
    have hc : ¬ (s.isCleaning = true ∧ s.cacheSize + (size : Int) > maxSettings cfg) := by
      simp [h]
    simp only [if_neg hc]

/-- A settling population task keeps `isCleaning` clear when it was clear. -/
theorem setToCache_isCleaning_false (cfg : Cfg) (path : String)
    (content : Except OriginErr (FileVal × Nat)) (name : String) (now : Nat)
    (writeOk : Bool) (s : CacheState) (fs : Fs) (h : s.isCleaning = false) :
    (setToCache cfg path content name now writeOk s fs).state.isCleaning = false := by
  rw [setToCache_eq_noTrigger cfg path content name now writeOk s fs h]
  unfold setToCacheNoTrigger
  cases content with
  | error e => exact h
  | ok fsz =>
    obtain ⟨file, size⟩ := fsz
    show (popWrite cfg path file size name now writeOk s fs).state.isCleaning = false
    rw [popWrite_isCleaning]
    exact h

/-- `delete` never touches the `isCleaning` field. -/
theorem delete_isCleaning (cfg : Cfg) (origin : Origin) (s : CacheState)
    (fs : Fs) (path : String) :
    (delete cfg origin s fs path).state.isCleaning = s.isCleaning := by
  unfold delete
  split
  · rfl
  · rfl
  · split
    · rfl
    · rfl

/-- Every step of the public surface preserves a clear `isCleaning` flag. -/
theorem step_isCleaning {cfg : Cfg} {origin : Origin} {p q : CacheState × Fs}
    (h : Step cfg origin p q) (hp : p.1.isCleaning = false) :
    q.1.isCleaning = false := by
  cases h with
  | readStep fuel s fs path mode now => rw [read_isCleaning]; exact hp
  | popStep s fs path content name now writeOk =>
    exact setToCache_isCleaning_false cfg path content name now writeOk s fs hp
  | deleteStep s fs path => rw [delete_isCleaning]; exact hp


/-- C1 counterexample: with `maxSize = 4` configured under both keys the
code reads, one cached row of size 10 (so the cumulative size 10 exceeds 4)
and a population of size 3 arriving while `isCleaning` is `true`, the claim
would require the eviction pass to drive the index total to at most
`0.75 * 4 = 3` or to empty the table; instead the invoked `cleanCache`
returns at its single-flight guard and the population raises the total to
13 with the table non-empty. -/
theorem eviction_watermark_cex :
    ¬ (4 * (setToCache ⟨some "cache", none, some 4, some 4⟩ "q"
            (Except.ok (FileVal.buf [1, 1, 1], 3)) "m" 1 true
            ⟨[⟨"p", "n", 10, 0⟩], 10, true⟩ []).state.cacheSize ≤ 3 * 4 ∨
        (setToCache ⟨some "cache", none, some 4, some 4⟩ "q"
            (Except.ok (FileVal.buf [1, 1, 1], 3)) "m" 1 true
            ⟨[⟨"p", "n", 10, 0⟩], 10, true⟩ []).state.cache = []) := by
  decide

/-- C1 (amended): when a population completes while a prior cleaning pass is
flagged active (`isCleaning = true`), the `cleanCache` call inside
`setToCache` returns immediately under its single-flight guard, so no
eviction happens: the whole population equals its write-and-index part, the
index total becomes the old total plus the new size (it is not driven down
to `0.75 * maxSize`), the row set is exactly the upsert of the new entry,
and the flag is left set. -/
theorem population_while_cleaning_no_eviction (cfg : Cfg) (d path name : String)
    (file : FileVal) (size now : Nat) (s : CacheState) (fs : Fs)
    (hcln : s.isCleaning = true) (hdir : cfg.directory = some d) :
    setToCache cfg path (Except.ok (file, size)) name now true s fs =
        popWrite cfg path file size name now true s fs ∧
      (setToCache cfg path (Except.ok (file, size)) name now true s fs).state.cacheSize =
        s.cacheSize + (size : Int) ∧
      (setToCache cfg path (Except.ok (file, size)) name now true s fs).state.cache =
        upsert s.cache ⟨path, name, size, now⟩ ∧
      (setToCache cfg path (Except.ok (file, size)) name now true s fs).state.isCleaning =
        true := by
  have hclean : cleanCache cfg s fs = (s, fs) := by
    unfold cleanCache
    rw [if_pos hcln]
  have hsf : (if s.isCleaning = true ∧ s.cacheSize + (size : Int) > maxSettings cfg
        then cleanCache cfg s fs else (s, fs)) = (s, fs) := by
    split
    · exact hclean
    · rfl
  have heq : setToCache cfg path (Except.ok (file, size)) name now true s fs =
      popWrite cfg path file size name now true s fs := by
    unfold setToCache
    simp only [hsf]
  refine ⟨heq, ?_, ?_, ?_⟩ <;> rw [heq] <;> simp [popWrite, getPath, hdir, hcln]

theorem population_while_cleaning_no_eviction_witness :
    setToCache ⟨some "cache", none, some 4, some 4⟩ "q"
        (Except.ok (FileVal.buf [1, 1, 1], 3)) "m" 1 true
        ⟨[⟨"p", "n", 10, 0⟩], 10, true⟩ [] =
      popWrite ⟨some "cache", none, some 4, some 4⟩ "q" (FileVal.buf [1, 1, 1]) 3
        "m" 1 true ⟨[⟨"p", "n", 10, 0⟩], 10, true⟩ [] ∧
    (setToCache ⟨some "cache", none, some 4, some 4⟩ "q"
        (Except.ok (FileVal.buf [1, 1, 1], 3)) "m" 1 true
        ⟨[⟨"p", "n", 10, 0⟩], 10, true⟩ []).state.cacheSize = 13 ∧
    (setToCache ⟨some "cache", none, some 4, some 4⟩ "q"
        (Except.ok (FileVal.buf [1, 1, 1], 3)) "m" 1 true
        ⟨[⟨"p", "n", 10, 0⟩], 10, true⟩ []).state.cache =
      [⟨"p", "n", 10, 0⟩, ⟨"q", "m", 3, 1⟩] ∧
    (setToCache ⟨some "cache", none, some 4, some 4⟩ "q"
        (Except.ok (FileVal.buf [1, 1, 1], 3)) "m" 1 true
        ⟨[⟨"p", "n", 10, 0⟩], 10, true⟩ []).state.isCleaning = true :=
  population_while_cleaning_no_eviction ⟨some "cache", none, some 4, some 4⟩
    "cache" "q" "m" (FileVal.buf [1, 1, 1]) 3 1 ⟨[⟨"p", "n", 10, 0⟩], 10, true⟩ []
    rfl rfl

/-- C2 (code bug at a failing input): start from a consistent state holding
one row `("p", "n", 5)` with counter 5, but with the physical blob missing.
A buffered `read "p"` takes the ENOENT recovery in `getFromCache`, which
deletes the row without decrementing `cacheSize` — the state the caller
observes has counter 5 over an empty table, and after the spawned
re-population of size 3 settles, the counter is 8 over rows summing to 3.
The invariant `CacheTotal = sum of sizes` is broken by the stale-entry
purge, contradicting the claim (and the function's own doc comment, which
says it updates the total cache size). -/
theorem stale_purge_breaks_total :
    I1 ⟨[⟨"p", "n", 5, 7⟩], 5, false⟩ ∧
      ¬ I1 (read 2 ⟨some "cache", none, none, none⟩
          ⟨fun _ _ => Except.ok (FileVal.buf [104, 105, 33], 3),
            fun _ => Except.ok 3, fun _ => Except.ok ()⟩
          ⟨[⟨"p", "n", 5, 7⟩], 5, false⟩ [] "p" Mode.buffer 9).state ∧
      ¬ I1 (setToCache ⟨some "cache", none, none, none⟩ "p"
          (Except.ok (FileVal.buf [104, 105, 33], 3)) "u" 10 true
          (read 2 ⟨some "cache", none, none, none⟩
            ⟨fun _ _ => Except.ok (FileVal.buf [104, 105, 33], 3),
              fun _ => Except.ok 3, fun _ => Except.ok ()⟩
            ⟨[⟨"p", "n", 5, 7⟩], 5, false⟩ [] "p" Mode.buffer 9).state
          (read 2 ⟨some "cache", none, none, none⟩
            ⟨fun _ _ => Except.ok (FileVal.buf [104, 105, 33], 3),
              fun _ => Except.ok 3, fun _ => Except.ok ()⟩
            ⟨[⟨"p", "n", 5, 7⟩], 5, false⟩ [] "p" Mode.buffer 9).fs).state := by
  decide

/-- C3: from any state with the single-flight flag clear (as at construction,
where the field initializer sets it to `false`), every sequence of completed
public operations — reads at any fuel and clock, detached populations with
any awaited content and write outcome, deletes — keeps `isCleaning = false`;
consequently, in every reachable state the next population behaves exactly
like `setToCache` with the eviction-trigger block deleted: `cleanCache` is
never entered and the eviction loop body never executes. -/
theorem isCleaning_never_set (cfg : Cfg) (origin : Origin)
    (s s' : CacheState) (fs fs' : Fs) (path name : String)
    (content : Except OriginErr (FileVal × Nat)) (now : Nat) (writeOk : Bool)
    (h0 : s.isCleaning = false)
    (h : Relation.ReflTransGen (Step cfg origin) (s, fs) (s', fs')) :
    s'.isCleaning = false ∧
      setToCache cfg path content name now writeOk s' fs' =
        setToCacheNoTrigger cfg path content name now writeOk s' fs' := by
  have key : ∀ q : CacheState × Fs,
      Relation.ReflTransGen (Step cfg origin) (s, fs) q → q.1.isCleaning = false := by
    intro q hq
    induction hq with
    | refl => exact h0
    | tail _ hstep ih => exact step_isCleaning hstep ih
  have h1 := key (s', fs') h
  exact ⟨h1, setToCache_eq_noTrigger cfg path content name now writeOk s' fs' h1⟩

theorem isCleaning_never_set_witness :
    (⟨[], 0, false⟩ : CacheState).isCleaning = false ∧
      setToCache ⟨some "cache", none, none, none⟩ "p"
          (Except.ok (FileVal.buf [1], 1)) "n" 3 true ⟨[], 0, false⟩ [] =
        setToCacheNoTrigger ⟨some "cache", none, none, none⟩ "p"
          (Except.ok (FileVal.buf [1], 1)) "n" 3 true ⟨[], 0, false⟩ [] :=
  isCleaning_never_set ⟨some "cache", none, none, none⟩
    ⟨fun _ _ => Except.error "e", fun _ => Except.error "e", fun _ => Except.error "e"⟩
    ⟨[], 0, false⟩ ⟨[], 0, false⟩ [] [] "p" "n" (Except.ok (FileVal.buf [1], 1)) 3 true
    rfl Relation.ReflTransGen.refl

/-- C4: when the index row for a path is present but the physical blob is
absent (`stat` ENOENT), `read` at any fuel of at least 2 removes the stale
row, best-effort-unlinks the physical leftover, and retries as a fresh call,
which resolves at the miss branch (the purged row cannot stale-hit again):
the caller receives exactly the origin's result — the staleness is never
surfaced — the row is gone, and a re-population is spawned.  The conclusion
is independent of the extra fuel `n`, so one retry always suffices. -/
theorem stale_hit_retries_fresh (n : Nat) (cfg : Cfg) (origin : Origin)
    (s : CacheState) (fs : Fs) (path d : String) (mode : Mode) (now : Nat)
    (ce : CacheEntry)
    (hce : lookupPath s.cache path = some ce)
    (hdir : cfg.directory = some d)
    (habs : Fs.lookup fs (d ++ "/" ++ ce.cachedPath) = none) :
    read (n + 2) cfg origin s fs path mode now =
      ⟨(origin.readResp path mode).mapError CdError.origin,
        ⟨removePath s.cache path, s.cacheSize, s.isCleaning⟩,
        Fs.unlink fs (d ++ "/" ++ ce.cachedPath),
        [(path, origin.readResp path mode)],
        [Ev.fsStat (d ++ "/" ++ ce.cachedPath),
          Ev.fsUnlink (d ++ "/" ++ ce.cachedPath), Ev.originRead path]⟩ := by
  have hdb := dbReady_ok cfg d hdir
  rw [read_hit_eq (n + 1) cfg origin s fs path mode now ce hdb hce]
  simp only [getFromCache, getFromCacheCore, hce, getPath, hdir, habs]
  rw [read_miss_eq n cfg origin ⟨removePath s.cache path, s.cacheSize, s.isCleaning⟩
    (Fs.unlink fs (d ++ "/" ++ ce.cachedPath)) path mode now hdb
    (lookupPath_removePath s.cache path)]
  rfl

theorem stale_hit_retries_fresh_witness :
    read 2 ⟨some "cache", none, none, none⟩
        ⟨fun _ _ => Except.ok (FileVal.buf [104], 1), fun _ => Except.ok 1,
          fun _ => Except.ok ()⟩
        ⟨[⟨"p", "n", 5, 7⟩], 5, false⟩ [] "p" Mode.buffer 9 =
      ⟨Except.ok (FileVal.buf [104], 1), ⟨[], 5, false⟩, [],
        [("p", Except.ok (FileVal.buf [104], 1))],
        [Ev.fsStat "cache/n", Ev.fsUnlink "cache/n", Ev.originRead "p"]⟩ :=
  stale_hit_retries_fresh 0 ⟨some "cache", none, none, none⟩
    ⟨fun _ _ => Except.ok (FileVal.buf [104], 1), fun _ => Except.ok 1,
      fun _ => Except.ok ()⟩
    ⟨[⟨"p", "n", 5, 7⟩], 5, false⟩ [] "p" "cache" Mode.buffer 9 ⟨"p", "n", 5, 7⟩
    rfl rfl rfl

/-- C5: on a miss (no index row for the path), `read` returns exactly the
origin's response — the same content-and-size pair, or the origin's error
carried unchanged — with the instance state and filesystem untouched at the
moment the caller's promise is produced; the population task is merely
spawned (pending in `pops`), not awaited, and the only external call made
is the origin read. -/
theorem miss_returns_origin (n : Nat) (cfg : Cfg) (origin : Origin)
    (s : CacheState) (fs : Fs) (path d : String) (mode : Mode) (now : Nat)
    (hdir : cfg.directory = some d)
    (hmiss : lookupPath s.cache path = none) :
    read (n + 1) cfg origin s fs path mode now =
      ⟨(origin.readResp path mode).mapError CdError.origin, s, fs,
        [(path, origin.readResp path mode)], [Ev.originRead path]⟩ := by
  rw [read_miss_eq n cfg origin s fs path mode now (dbReady_ok cfg d hdir) hmiss]
  rfl

theorem miss_returns_origin_witness :
    read 1 ⟨some "cache", none, none, none⟩
        ⟨fun _ _ => Except.error "boom", fun _ => Except.ok 1, fun _ => Except.ok ()⟩
        ⟨[], 0, false⟩ [] "a" Mode.stream 4 =
      ⟨Except.error (CdError.origin "boom"), ⟨[], 0, false⟩, [],
        [("a", Except.error "boom")], [Ev.originRead "a"]⟩ :=
  miss_returns_origin 0 ⟨some "cache", none, none, none⟩
    ⟨fun _ _ => Except.error "boom", fun _ => Except.ok 1, fun _ => Except.ok ()⟩
    ⟨[], 0, false⟩ [] "a" "cache" Mode.stream 4 rfl rfl

/-- C6 counterexample: a hit on a row recording `size = 5` whose physical
blob holds 7 bytes: the streamed read returns the blob with the
`stat`-reported size 7, not the stored index size 5 — refuting the claim
that streamed mode returns the size recorded in the index entry. -/
theorem streamed_size_cex :
    (read 1 ⟨some "cache", none, none, none⟩
        ⟨fun _ _ => Except.ok (FileVal.buf [], 0), fun _ => Except.ok 0,
          fun _ => Except.ok ()⟩
        ⟨[⟨"p", "n", 5, 0⟩], 5, false⟩ [("cache/n", [9, 9, 9, 9, 9, 9, 9])]
        "p" Mode.stream 42).result =
      Except.ok (FileVal.stream [9, 9, 9, 9, 9, 9, 9], 7) ∧
    (read 1 ⟨some "cache", none, none, none⟩
        ⟨fun _ _ => Except.ok (FileVal.buf [], 0), fun _ => Except.ok 0,
          fun _ => Except.ok ()⟩
        ⟨[⟨"p", "n", 5, 0⟩], 5, false⟩ [("cache/n", [9, 9, 9, 9, 9, 9, 9])]
        "p" Mode.stream 42).result ≠
      Except.ok (FileVal.stream [9, 9, 9, 9, 9, 9, 9], 5) := by
  decide

/-- C6 (amended): on a hit whose blob exists, `read` first sets the row's
`lastAccess` to the current clock, then serves the blob: buffered mode
returns the blob's bytes, streamed mode a readable over them, and in both
modes the returned size is the blob's `stat` size (its byte length), not
the size recorded in the index row; no population is spawned. -/
theorem hit_serves_blob_stat_size (n : Nat) (cfg : Cfg) (origin : Origin)
    (s : CacheState) (fs : Fs) (path d : String) (mode : Mode) (now : Nat)
    (ce : CacheEntry) (b : Bytes)
    (hce : lookupPath s.cache path = some ce)
    (hdir : cfg.directory = some d)
    (hb : Fs.lookup fs (d ++ "/" ++ ce.cachedPath) = some b) :
    (read (n + 1) cfg origin s fs path mode now).result =
        Except.ok (fileOfMode mode b, b.length) ∧
      (read (n + 1) cfg origin s fs path mode now).state =
        ⟨touch s.cache path now, s.cacheSize, s.isCleaning⟩ ∧
      (read (n + 1) cfg origin s fs path mode now).fs = fs ∧
      (read (n + 1) cfg origin s fs path mode now).pops = [] := by
  have hdb := dbReady_ok cfg d hdir
  rw [read_hit_eq n cfg origin s fs path mode now ce hdb hce]
  cases mode <;>
    simp [getFromCache, getFromCacheCore, hce, getPath, hdir, hb, fileOfMode]

theorem hit_serves_blob_stat_size_witness :
    (read 1 ⟨some "cache", none, none, none⟩
        ⟨fun _ _ => Except.ok (FileVal.buf [], 0), fun _ => Except.ok 0,
          fun _ => Except.ok ()⟩
        ⟨[⟨"p", "n", 5, 0⟩], 5, false⟩ [("cache/n", [9, 9])] "p" Mode.stream 42).result =
        Except.ok (FileVal.stream [9, 9], 2) ∧
      (read 1 ⟨some "cache", none, none, none⟩
        ⟨fun _ _ => Except.ok (FileVal.buf [], 0), fun _ => Except.ok 0,
          fun _ => Except.ok ()⟩
        ⟨[⟨"p", "n", 5, 0⟩], 5, false⟩ [("cache/n", [9, 9])] "p" Mode.stream 42).state =
        ⟨[⟨"p", "n", 5, 42⟩], 5, false⟩ ∧
      (read 1 ⟨some "cache", none, none, none⟩
        ⟨fun _ _ => Except.ok (FileVal.buf [], 0), fun _ => Except.ok 0,
          fun _ => Except.ok ()⟩
        ⟨[⟨"p", "n", 5, 0⟩], 5, false⟩ [("cache/n", [9, 9])] "p" Mode.stream 42).fs =
        [("cache/n", [9, 9])] ∧
      (read 1 ⟨some "cache", none, none, none⟩
        ⟨fun _ _ => Except.ok (FileVal.buf [], 0), fun _ => Except.ok 0,
          fun _ => Except.ok ()⟩
        ⟨[⟨"p", "n", 5, 0⟩], 5, false⟩ [("cache/n", [9, 9])] "p" Mode.stream 42).pops = [] :=
  hit_serves_blob_stat_size 0 ⟨some "cache", none, none, none⟩
    ⟨fun _ _ => Except.ok (FileVal.buf [], 0), fun _ => Except.ok 0,
      fun _ => Except.ok ()⟩
    ⟨[⟨"p", "n", 5, 0⟩], 5, false⟩ [("cache/n", [9, 9])] "p" "cache" Mode.stream 42
    ⟨"p", "n", 5, 0⟩ [9, 9] rfl rfl rfl

/-- C7 counterexample: a population whose blob write fails settles with a
rejection (`writeFailed`) — the failure is not caught inside `setToCache`
(no handler wraps the write; only the `cleanCache` sub-call has a
`.catch`), refuting the claim that any failure inside the population
routine is caught and swallowed internally. -/
theorem population_failure_not_swallowed_cex :
    (setToCache ⟨some "cache", none, none, none⟩ "p"
        (Except.ok (FileVal.buf [1], 1)) "n" 5 false ⟨[], 0, false⟩ []).outcome =
      Except.error PopErr.writeFailed := by
  decide

/-- C7 (amended): a failure inside the detached population never reaches the
caller of `read` — on a miss the caller's result is the origin's response,
produced before the population runs and independent of its outcome — but
the failure is not swallowed either: a failed blob write leaves the
population task rejected with no index or filesystem mutation, and its call
site (`void this.setToCache(...)`) attaches no handler, so the rejection
escapes unhandled. -/
theorem population_failure_isolated (n : Nat) (cfg : Cfg) (origin : Origin)
    (s : CacheState) (fs : Fs) (path d name : String) (mode : Mode) (now : Nat)
    (file : FileVal) (size : Nat)
    (hdir : cfg.directory = some d)
    (hmiss : lookupPath s.cache path = none)
    (hcln : s.isCleaning = false) :
    (read (n + 1) cfg origin s fs path mode now).result =
        (origin.readResp path mode).mapError CdError.origin ∧
      setToCache cfg path (Except.ok (file, size)) name now false s fs =
        ⟨s, fs, Except.error PopErr.writeFailed⟩ := by
  constructor
  · rw [read_miss_eq n cfg origin s fs path mode now (dbReady_ok cfg d hdir) hmiss]
    rfl
  · rw [setToCache_eq_noTrigger cfg path (Except.ok (file, size)) name now false s fs hcln]
    simp [setToCacheNoTrigger, popWrite, getPath, hdir]

theorem population_failure_isolated_witness :
    (read 1 ⟨some "cache", none, none, none⟩
        ⟨fun _ _ => Except.ok (FileVal.buf [1], 1), fun _ => Except.ok 1,
          fun _ => Except.ok ()⟩
        ⟨[], 0, false⟩ [] "p" Mode.buffer 2).result =
        Except.ok (FileVal.buf [1], 1) ∧
      setToCache ⟨some "cache", none, none, none⟩ "p"
          (Except.ok (FileVal.buf [1], 1)) "n" 2 false ⟨[], 0, false⟩ [] =
        ⟨⟨[], 0, false⟩, [], Except.error PopErr.writeFailed⟩ :=
  population_failure_isolated 0 ⟨some "cache", none, none, none⟩
    ⟨fun _ _ => Except.ok (FileVal.buf [1], 1), fun _ => Except.ok 1,
      fun _ => Except.ok ()⟩
    ⟨[], 0, false⟩ [] "p" "cache" "n" Mode.buffer 2 (FileVal.buf [1]) 1
    rfl rfl rfl

/-- C8: `delete` first performs the cache-side cleanup when a row is present
(best-effort unlink of the blob, removal of the row, decrement of the
counter by the row's size — the event order records the unlink before the
origin call) and then forwards the deletion to the origin, whose response
(value or error) is returned unchanged; the new cache state is given by a
formula that does not mention the origin's response at all, so the cleanup
is not rolled back when the origin delete fails.  Without a row, only the
forwarding happens. -/
theorem delete_cleans_cache_then_forwards (cfg : Cfg) (origin : Origin)
    (s : CacheState) (fs : Fs) (path d : String)
    (hdir : cfg.directory = some d) :
    (delete cfg origin s fs path).result =
        (origin.deleteResp path).mapError CdError.origin ∧
      (match lookupPath s.cache path with
        | none => delete cfg origin s fs path =
            ⟨(origin.deleteResp path).mapError CdError.origin, s, fs,
              [Ev.originDelete path]⟩
        | some ce => delete cfg origin s fs path =
            ⟨(origin.deleteResp path).mapError CdError.origin,
              ⟨removePath s.cache path, s.cacheSize - (ce.size : Int), s.isCleaning⟩,
              Fs.unlink fs (d ++ "/" ++ ce.cachedPath),
              [Ev.fsUnlink (d ++ "/" ++ ce.cachedPath), Ev.originDelete path]⟩) := by
  have hdb := dbReady_ok cfg d hdir
  cases hl : lookupPath s.cache path with
  | none => simp [delete, isCached, hdb, hl, Except.map]
  | some ce => simp [delete, isCached, hdb, hl, getPath, hdir, Except.map]

theorem delete_cleans_cache_then_forwards_witness :
    (delete ⟨some "cache", none, none, none⟩
        ⟨fun _ _ => Except.ok (FileVal.buf [], 0), fun _ => Except.ok 0,
          fun _ => Except.error "FileDoesNotExist"⟩
        ⟨[⟨"p", "n", 5, 7⟩], 5, false⟩ [("cache/n", [1])] "p").result =
        Except.error (CdError.origin "FileDoesNotExist") ∧
      delete ⟨some "cache", none, none, none⟩
          ⟨fun _ _ => Except.ok (FileVal.buf [], 0), fun _ => Except.ok 0,
            fun _ => Except.error "FileDoesNotExist"⟩
          ⟨[⟨"p", "n", 5, 7⟩], 5, false⟩ [("cache/n", [1])] "p" =
        ⟨Except.error (CdError.origin "FileDoesNotExist"), ⟨[], 0, false⟩, [],
          [Ev.fsUnlink "cache/n", Ev.originDelete "p"]⟩ :=
  delete_cleans_cache_then_forwards ⟨some "cache", none, none, none⟩
    ⟨fun _ _ => Except.ok (FileVal.buf [], 0), fun _ => Except.ok 0,
      fun _ => Except.error "FileDoesNotExist"⟩
    ⟨[⟨"p", "n", 5, 7⟩], 5, false⟩ [("cache/n", [1])] "p" "cache" rfl

/-- C9: with no cache directory configured, both `read` and `delete` raise
the `ConfigNotFoundError` carrying the key `settings.disk.cache.directory`
(and the class's message) from the lazy database accessor, before any
origin or filesystem call is made (the recorded event trace is empty) and
with all cache state unchanged. -/
theorem config_fail_fast (n : Nat) (cfg : Cfg) (origin : Origin)
    (s : CacheState) (fs : Fs) (path : String) (mode : Mode) (now : Nat)
    (hdir : cfg.directory = none) :
    read (n + 1) cfg origin s fs path mode now =
        ⟨Except.error (CdError.configNotFound directoryKey directoryMsg), s, fs,
          [], []⟩ ∧
      delete cfg origin s fs path =
        ⟨Except.error (CdError.configNotFound directoryKey directoryMsg), s, fs,
          []⟩ := by
  have hdb : dbReady cfg =
      Except.error (CdError.configNotFound directoryKey directoryMsg) := by
    simp [dbReady, getPath, hdir, Except.map]
  constructor
  · simp [read, isCached, hdb, Except.map]
  · simp [delete, isCached, hdb, Except.map]

theorem config_fail_fast_witness :
    read 1 ⟨none, none, none, none⟩
        ⟨fun _ _ => Except.ok (FileVal.buf [1], 1), fun _ => Except.ok 1,
          fun _ => Except.ok ()⟩
        ⟨[], 0, false⟩ [] "p" Mode.buffer 0 =
      ⟨Except.error (CdError.configNotFound directoryKey directoryMsg),
        ⟨[], 0, false⟩, [], [], []⟩ ∧
    delete ⟨none, none, none, none⟩
        ⟨fun _ _ => Except.ok (FileVal.buf [1], 1), fun _ => Except.ok 1,
          fun _ => Except.ok ()⟩
        ⟨[], 0, false⟩ [] "p" =
      ⟨Except.error (CdError.configNotFound directoryKey directoryMsg),
        ⟨[], 0, false⟩, [], []⟩ :=
  config_fail_fast 0 ⟨none, none, none, none⟩
    ⟨fun _ _ => Except.ok (FileVal.buf [1], 1), fun _ => Except.ok 1,
      fun _ => Except.ok ()⟩
    ⟨[], 0, false⟩ [] "p" Mode.buffer 0 rfl

/-- C10: `readSize` is a pure pass-through: it returns exactly the origin's
`readSize` response (value or error, carried unchanged), leaves the cache
state and the blob filesystem untouched, and makes no call other than the
origin `readSize` itself. -/
theorem readSize_passthrough (origin : Origin) (s : CacheState) (fs : Fs)
    (path : String) :
    readSize origin s fs path =
      ((origin.readSizeResp path).mapError CdError.origin, s, fs,
        [Ev.originReadSize path]) := rfl

end CachedDisk
